import Mathlib

/-!
Shallow embedding of the Watch Store API backend (src/main.py, src/schemas.py).

The document store adapter (database.py: db, create_document, get_documents) is
imported by src/main.py but is not present under src/; its operations are
modelled from the spec (section 4.1): insert appends a document and returns a
newly generated unique identifier as a string, query returns all matching
documents with exact-match equality on fields and a case-insensitive substring
match for the title field, and an unavailable store makes every dependent
endpoint report a 500 error.

Floating point prices are modelled as rationals; rounding to two decimal
places is modelled by round2 below. No value in any claim lies at an exact
rounding tie, so the difference between rounding modes is never exercised.
-/

namespace WatchStore

/-- HTTP error as raised by fastapi.HTTPException: a status code and a detail
string. -/
structure HTTPError where
  status : Nat
  detail : String
deriving Repr, DecidableEq

/-- Watch document as stored in the "watch" collection (schema Watch in
src/schemas.py, payload WatchIn / seed samples in src/main.py), together with
the store-assigned identifier (the Mongo field named id with a leading
underscore, called oid here). -/
structure WatchDoc where
  oid : String
  title : String
  description : Option String
  price : ℚ
  brand : String
  collection : String
  image : Option String
  images : Option (List String)
  in_stock : Bool
deriving Repr, DecidableEq

/-- CartItem document as stored in the "cartitem" collection (schema CartItem
in src/schemas.py; the document built by add_to_cart in src/main.py lines
164-171), with the store-assigned identifier oid. The quantity is a Python
int, modelled as an unbounded integer. -/
structure CartItemDoc where
  oid : String
  cart_id : String
  product_id : String
  quantity : Int
  price_snapshot : ℚ
  title_snapshot : Option String
  image_snapshot : Option String
deriving Repr, DecidableEq

/-- Cart item as returned to clients: the store identifier is popped and
replaced by a plain string field id (src/main.py lines 181-182 and 199-200). -/
structure CartItemOut where
  id : String
  cart_id : String
  product_id : String
  quantity : Int
  price_snapshot : ℚ
  title_snapshot : Option String
  image_snapshot : Option String
deriving Repr, DecidableEq

/-- Order document as stored in the "order" collection (schema Order in
src/schemas.py; the document built by checkout in src/main.py lines 202-208),
with the store-assigned identifier oid. -/
structure OrderDoc where
  oid : String
  cart_id : String
  items : List CartItemOut
  subtotal : ℚ
  status : String
  email : Option String
deriving Repr, DecidableEq

/-- Modelled from the spec: the state of the document store. database.py is
not under src/, so the store is modelled per spec sections 2 and 4.1: an
availability flag (a failed connection leaves db None and every endpoint
checks it), one sequence of documents per collection used by the endpoints,
and a counter from which fresh identifiers are generated. -/
structure DBState where
  available : Bool
  watch : List WatchDoc
  cartitem : List CartItemDoc
  order : List OrderDoc
  nextId : Nat
deriving Repr, DecidableEq

/-- Modelled from the spec: insert returns "a newly generated unique
identifier as a string". Identifiers are generated as 24-character
hexadecimal strings, the ObjectId text format. -/
def genId (n : Nat) : String :=
  let ds := Nat.toDigits 16 n
  String.mk (List.replicate (24 - ds.length) '0' ++ ds)

/-- Hexadecimal digit test used by the ObjectId format check. -/
def isHexChar (c : Char) : Bool :=
  c.isDigit || ('a' ≤ c && c ≤ 'f') || ('A' ≤ c && c ≤ 'F')

/-- Modelled from the spec: "an identifier that is not a valid id format is a
distinct error from not found". The source calls bson.ObjectId on the client
string, which accepts exactly 24-character hexadecimal strings and raises an
exception otherwise. -/
def isValidObjectId (s : String) : Bool :=
  s.length == 24 && s.data.all isHexChar

/-- Rounding to two decimal places, modelling the round(x, 2) calls in
src/main.py lines 184 and 205. -/
def round2 (q : ℚ) : ℚ :=
  (round (q * 100) : ℤ) / 100

/-- GET /watches/{watch_id}, inner try block (src/main.py lines 141-146):
constructing the ObjectId raises on a malformed id, a found document is
returned with its identifier renamed, and a missing document raises
HTTPException 404. -/
def getWatchTry (s : DBState) (watch_id : String) : Except HTTPError WatchDoc :=
  if isValidObjectId watch_id then
    match s.watch.find? (fun w => w.oid == watch_id) with
    | some w => .ok w
    | none => .error ⟨404, "Watch not found"⟩
  else
    .error ⟨400, "Invalid ID"⟩

/-- GET /watches/{watch_id} (src/main.py lines 137-148). The except clause
catches every Exception raised inside the try block, including the
HTTPException with status 404, and replaces it with the 400 Invalid ID
error. -/
def get_watch (s : DBState) (watch_id : String) : Except HTTPError WatchDoc :=
  if s.available = false then .error ⟨500, "Database not available"⟩
  else
    match getWatchTry s watch_id with
    | .ok w => .ok w
    | .error _ => .error ⟨400, "Invalid ID"⟩

/-- Projection of a stored cart item to its client form (the id rename in
src/main.py lines 181-182 and 199-200). -/
def cartItemOut (c : CartItemDoc) : CartItemOut :=
  ⟨c.oid, c.cart_id, c.product_id, c.quantity, c.price_snapshot,
    c.title_snapshot, c.image_snapshot⟩

/-- Sum of price_snapshot times quantity over a list of cart items, as
computed in src/main.py lines 183 and 201. -/
def cartTotal (items : List CartItemOut) : ℚ :=
  (items.map (fun i => i.price_snapshot * (i.quantity : ℚ))).sum

/-- Response of GET /cart/{cart_id}: the items plus the computed total
(src/main.py line 184). -/
structure CartView where
  items : List CartItemOut
  total : ℚ
deriving Repr, DecidableEq

/-- GET /cart/{cart_id} (src/main.py lines 176-184): returns every cartitem
document whose cart_id equals the path value, with the total computed at
read time. -/
def get_cart (s : DBState) (cart_id : String) : Except HTTPError CartView :=
  if s.available = false then .error ⟨500, "Database not available"⟩
  else
    let outs := (s.cartitem.filter (fun c => c.cart_id == cart_id)).map cartItemOut
    .ok ⟨outs, round2 (cartTotal outs)⟩

/-- Request body of POST /cart/add (class AddToCartIn, src/main.py lines
151-154). The quantity field defaults to 1 when omitted; the model places no
lower bound on it, unlike the CartItem schema in src/schemas.py line 52. -/
structure AddToCartIn where
  cart_id : String
  product_id : String
  quantity : Int := 1
deriving Repr, DecidableEq

/-- POST /cart/add (src/main.py lines 157-173): looks up the product by id
(an unguarded ObjectId construction, so a malformed product_id raises an
uncaught exception, a 500 response), snapshots price, title and image, and
inserts a cartitem document. -/
def add_to_cart (s : DBState) (p : AddToCartIn) : DBState × Except HTTPError Unit :=
  if s.available = false then (s, .error ⟨500, "Database not available"⟩)
  else if isValidObjectId p.product_id = false then
    (s, .error ⟨500, "Internal Server Error"⟩)
  else
    match s.watch.find? (fun w => w.oid == p.product_id) with
    | none => (s, .error ⟨404, "Product not found"⟩)
    | some w =>
      let doc : CartItemDoc :=
        ⟨genId s.nextId, p.cart_id, p.product_id, p.quantity, w.price,
          some w.title, w.image⟩
      ({ s with cartitem := s.cartitem ++ [doc], nextId := s.nextId + 1 }, .ok ())

/-- Request body of POST /checkout (class CheckoutIn, src/main.py lines
187-189). -/
structure CheckoutIn where
  cart_id : String
  email : Option String := none
deriving Repr, DecidableEq

/-- POST /checkout (src/main.py lines 192-210): loads every cartitem with the
given cart_id, fails with 400 if there are none, computes the rounded
subtotal, and inserts one order document with status paid; the cartitem
documents are not deleted or modified. Returns the new state together with
the response (status string and order id). -/
def checkout (s : DBState) (p : CheckoutIn) :
    DBState × Except HTTPError (String × String) :=
  if s.available = false then (s, .error ⟨500, "Database not available"⟩)
  else
    let items := s.cartitem.filter (fun c => c.cart_id == p.cart_id)
    if items.isEmpty then (s, .error ⟨400, "Cart is empty"⟩)
    else
      let outs := items.map cartItemOut
      let od : OrderDoc :=
        ⟨genId s.nextId, p.cart_id, outs, round2 (cartTotal outs), "paid", p.email⟩
      ({ s with order := s.order ++ [od], nextId := s.nextId + 1 },
        .ok ("paid", genId s.nextId))

/-- Watch payload without a store identifier (class WatchIn in src/main.py
lines 21-29, and the shape of the seed sample dictionaries). -/
structure WatchIn where
  title : String
  description : Option String
  price : ℚ
  brand : String
  collection : String
  image : Option String
  images : Option (List String)
  in_stock : Bool
deriving Repr, DecidableEq

/-- The three fixed sample records inserted by POST /seed (src/main.py lines
73-113). -/
def sampleWatches : List WatchIn :=
  [ ⟨"ChronoMaster Pro",
      some "Stainless steel chronograph with sapphire crystal.",
      599, "Aeternum", "chronograph",
      some "https://images.unsplash.com/photo-1518081461904-9acda21b54fd?q=80&w=1200&auto=format&fit=crop",
      some ["https://images.unsplash.com/photo-1518081461904-9acda21b54fd?q=80&w=1200&auto=format&fit=crop",
            "https://images.unsplash.com/photo-1490367532201-b9bc1dc483f6?q=80&w=1200&auto=format&fit=crop"],
      true⟩,
    ⟨"Elegance Dress 40",
      some "Ultra-thin automatic dress watch in rose gold tone.",
      749, "Novelle", "dress",
      some "https://images.unsplash.com/photo-1516570161787-2fd917215a3d?q=80&w=1200&auto=format&fit=crop",
      some ["https://images.unsplash.com/photo-1516570161787-2fd917215a3d?q=80&w=1200&auto=format&fit=crop",
            "https://images.unsplash.com/photo-1524805444758-089113d48a6d?q=80&w=1200&auto=format&fit=crop"],
      true⟩,
    ⟨"AquaSport 300",
      some "Professional diver with ceramic bezel and 300m WR.",
      899, "Pelagos", "sport",
      some "https://images.unsplash.com/photo-1518546305927-5a555bb7020d?q=80&w=1200&auto=format&fit=crop",
      some ["https://images.unsplash.com/photo-1518546305927-5a555bb7020d?q=80&w=1200&auto=format&fit=crop",
            "https://images.unsplash.com/photo-1483721310020-03333e577078?q=80&w=1200&auto=format&fit=crop"],
      true⟩ ]

/-- Modelled from the spec: create_document (database.py, absent from src/)
appends the document to the named collection and returns a newly generated
identifier; here specialised to the watch collection as used by the seed
loop. -/
def createWatch (s : DBState) (w : WatchIn) : DBState :=
  { s with
    watch := s.watch ++
      [⟨genId s.nextId, w.title, w.description, w.price, w.brand,
        w.collection, w.image, w.images, w.in_stock⟩],
    nextId := s.nextId + 1 }

/-- POST /seed (src/main.py lines 65-116): a 500 error if the store is
unavailable, a no-op answering inserted 0 if the watch collection is
non-empty, and otherwise the insertion of the three sample records answering
inserted 3. Returns the new state together with the inserted count. -/
def seed_watches (s : DBState) : DBState × Except HTTPError Nat :=
  if s.available = false then (s, .error ⟨500, "Database not available"⟩)
  else if s.watch.length > 0 then (s, .ok 0)
  else (sampleWatches.foldl createWatch s, .ok 3)

/-- State after one POST /seed call. -/
def seedState (s : DBState) : DBState :=
  (seed_watches s).1

/-- State after n sequential POST /seed calls. -/
def iterSeed : Nat → DBState → DBState
  | 0, s => s
  | n + 1, s => iterSeed n (seedState s)

/-- Decides whether the lowercased pattern occurs as a contiguous substring
of the lowercased text, character by character. -/
def isSubListOf : List Char → List Char → Bool
  | needle, [] => needle.isEmpty
  | needle, c :: rest => needle.isPrefixOf (c :: rest) || isSubListOf needle rest

/-- Character sequence of a string with every character lowercased. -/
def lowerData (s : String) : List Char :=
  s.data.map Char.toLower

/-- Modelled from the spec: the store query "returns all matching documents;
filter supports exact-match equality on fields and a case-insensitive
substring/pattern match specifically for the title field". The source passes
q to the store as a case-insensitive regular expression (src/main.py line
129); for patterns without metacharacters this is a case-insensitive
substring match, which is what is modelled. -/
def titleMatches (q : String) (title : String) : Bool :=
  isSubListOf (lowerData q) (lowerData title)

/-- Filter object built by GET /watches (src/main.py lines 123-129). A None
or empty-string parameter adds no condition, matching the Python truthiness
tests. -/
def watchMatches (collection brand q : Option String) (w : WatchDoc) : Bool :=
  (match collection with
    | none => true
    | some c => if c.isEmpty then true else w.collection == c) &&
  (match brand with
    | none => true
    | some b => if b.isEmpty then true else w.brand == b) &&
  (match q with
    | none => true
    | some pat => if pat.isEmpty then true else titleMatches pat w.title)

/-- Watch as returned to clients: the store identifier is popped and replaced
by a plain string field id (src/main.py lines 132-133). -/
structure WatchOut where
  id : String
  title : String
  description : Option String
  price : ℚ
  brand : String
  collection : String
  image : Option String
  images : Option (List String)
  in_stock : Bool
deriving Repr, DecidableEq

/-- Projection of a stored watch to its client form. -/
def watchOut (w : WatchDoc) : WatchOut :=
  ⟨w.oid, w.title, w.description, w.price, w.brand, w.collection,
    w.image, w.images, w.in_stock⟩

/-- GET /watches (src/main.py lines 119-134): returns all watches matching
the optional collection, brand and title filters, with identifiers renamed. -/
def list_watches (s : DBState) (collection brand q : Option String) :
    Except HTTPError (List WatchOut) :=
  if s.available = false then .error ⟨500, "Database not available"⟩
  else .ok ((s.watch.filter (watchMatches collection brand q)).map watchOut)

/-! Theorems for the claims. -/

lemma round2_zero : round2 0 = 0 := by
  norm_num [round2]

/-- C1: the claim says a well-formed id with no matching watch yields 404.
In the source the raise of HTTPException(404) sits inside the try block of
get_watch, and the except Exception clause converts it to the 400 Invalid ID
response: on an available empty store, the well-formed identifier
0123456789abcdef01234567 is answered with 400, not 404, even though 404 is
what the raise statement on src/main.py line 144 intends. -/
theorem c1_get_watch_wellformed_absent_returns_400 :
    isValidObjectId "0123456789abcdef01234567" = true ∧
    get_watch ⟨true, [], [], [], 0⟩ "0123456789abcdef01234567" =
      .error ⟨400, "Invalid ID"⟩ ∧
    getWatchTry ⟨true, [], [], [], 0⟩ "0123456789abcdef01234567" =
      .error ⟨404, "Watch not found"⟩ :=
  ⟨by decide, rfl, rfl⟩

/-- C2: the claim says every CartItem stored via POST /cart/add has
quantity at least 1. The request model AddToCartIn (src/main.py line 154)
defaults quantity to 1 but places no lower bound on it, unlike the CartItem
schema (src/schemas.py line 52): a request with quantity 0 against an
existing product stores a cartitem document with quantity 0. The default is
indeed 1 when the field is omitted. -/
theorem c2_add_to_cart_stores_nonpositive_quantity :
    ({ cart_id := "c1", product_id := "0123456789abcdef01234567" } :
      AddToCartIn).quantity = 1 ∧
    ((add_to_cart
        ⟨true,
          [⟨"0123456789abcdef01234567", "ChronoMaster Pro", none, 599,
            "Aeternum", "chronograph", none, none, true⟩],
          [], [], 0⟩
        ⟨"c1", "0123456789abcdef01234567", 0⟩).1.cartitem.map
      (fun c => c.quantity)) = [0] :=
  ⟨rfl, rfl⟩

/-- C3: for every cart_id with no cartitem records, POST /checkout on an
available store fails with the 400 Cart is empty error and leaves the state,
in particular the order collection, unchanged. -/
theorem c3_checkout_empty_cart_fails (s : DBState) (p : CheckoutIn)
    (h : s.available = true)
    (he : s.cartitem.filter (fun c => c.cart_id == p.cart_id) = []) :
    checkout s p = (s, .error ⟨400, "Cart is empty"⟩) := by
  simp [checkout, h, he]

/-- Witness for C3 at a concrete empty store. -/
theorem c3_checkout_empty_cart_fails_witness :
    checkout ⟨true, [], [], [], 0⟩ ⟨"anybody", none⟩ =
      (⟨true, [], [], [], 0⟩, .error ⟨400, "Cart is empty"⟩) :=
  c3_checkout_empty_cart_fails ⟨true, [], [], [], 0⟩ ⟨"anybody", none⟩ rfl rfl

/-- C10: for every cart_id with no matching cartitem records, GET /cart on
an available store succeeds and returns an empty items list with total 0;
an unknown cart_id is never a not-found error. -/
theorem c10_get_cart_unknown_id_empty (s : DBState) (cid : String)
    (h : s.available = true)
    (he : s.cartitem.filter (fun c => c.cart_id == cid) = []) :
    get_cart s cid = .ok ⟨[], 0⟩ := by
  simp [get_cart, h, he, cartTotal, round2_zero]

/-- Witness for C10 at a concrete empty store. -/
theorem c10_get_cart_unknown_id_empty_witness :
    get_cart ⟨true, [], [], [], 0⟩ "never-used" = .ok ⟨[], 0⟩ :=
  c10_get_cart_unknown_id_empty ⟨true, [], [], [], 0⟩ "never-used" rfl rfl

lemma seedState_eq_self_of_unavailable (s : DBState) (h : s.available = false) :
    seedState s = s := by
  simp [seedState, seed_watches, h]

lemma seedState_eq_self_of_nonempty (s : DBState) (h : s.watch ≠ []) :
    seedState s = s := by
  have hl : 0 < s.watch.length := List.length_pos.mpr h
  unfold seedState seed_watches
  cases hA : s.available <;> simp [hl]

lemma seedState_watch_length_of_empty (s : DBState) (h : s.available = true)
    (hw : s.watch = []) : (seedState s).watch.length = 3 := by
  simp [seedState, seed_watches, h, hw, sampleWatches, createWatch]

lemma seedState_idem (s : DBState) : seedState (seedState s) = seedState s := by
  cases hA : s.available
  · rw [seedState_eq_self_of_unavailable s hA, seedState_eq_self_of_unavailable s hA]
  · rcases hw : s.watch with _ | ⟨a, t⟩
    · apply seedState_eq_self_of_nonempty
      have h3 := seedState_watch_length_of_empty s hA hw
      intro hnil
      rw [hnil] at h3
      simp at h3
    · rw [seedState_eq_self_of_nonempty s (by rw [hw]; simp)]
      rw [seedState_eq_self_of_nonempty s (by rw [hw]; simp)]

lemma iterSeed_succ_eq_seedState (n : Nat) (s : DBState) :
    iterSeed (n + 1) s = seedState s := by
  induction n generalizing s with
  | zero => rfl
  | succ n ih =>
    show iterSeed (n + 1) (seedState s) = seedState s
    rw [ih (seedState s), seedState_idem]

/-- C4: POST /seed inserts nothing when the watch collection is non-empty,
inserts exactly 3 sample records (reporting inserted 3) when the store is
available and the collection is empty, and for every N at least 1 the watch
collection size after N sequential seed calls equals the size after 1
call. -/
theorem c4_seed_idempotent (s : DBState) (N : Nat) (hN : 1 ≤ N) :
    (s.watch ≠ [] → seedState s = s) ∧
    (s.available = true → s.watch = [] →
      (seedState s).watch.length = 3 ∧ (seed_watches s).2 = .ok 3) ∧
    (iterSeed N s).watch.length = (iterSeed 1 s).watch.length := by
  refine ⟨seedState_eq_self_of_nonempty s,
    fun hA hw => ⟨seedState_watch_length_of_empty s hA hw, ?_⟩, ?_⟩
  · simp [seed_watches, hA, hw]
  · obtain ⟨n, rfl⟩ : ∃ n, N = n + 1 := ⟨N - 1, (Nat.succ_pred_eq_of_pos hN).symm⟩
    rw [iterSeed_succ_eq_seedState, iterSeed_succ_eq_seedState]

/-- Witness for C4: two seed calls on a concrete empty store leave the same
collection size as one call, namely 3. -/
theorem c4_seed_idempotent_witness :
    (iterSeed 2 ⟨true, [], [], [], 0⟩).watch.length =
      (iterSeed 1 ⟨true, [], [], [], 0⟩).watch.length ∧
    (seedState ⟨true, [], [], [], 0⟩).watch.length = 3 :=
  ⟨(c4_seed_idempotent ⟨true, [], [], [], 0⟩ 2 (by decide)).2.2,
    ((c4_seed_idempotent ⟨true, [], [], [], 0⟩ 2 (by decide)).2.1 rfl rfl).1⟩

/-- C5: on an available store, GET /cart/{cart_id} succeeds and its total
field equals the sum over the returned items of price_snapshot times
quantity, rounded to 2 decimal places; the total is recomputed from the
items at read time (no stored cartitem document carries a total field). -/
theorem c5_cart_total_formula (s : DBState) (cid : String)
    (h : s.available = true) :
    ∃ v : CartView, get_cart s cid = .ok v ∧
      v.total = round2 ((v.items.map
        (fun i => i.price_snapshot * (i.quantity : ℚ))).sum) := by
  have e : get_cart s cid = Except.ok
      ⟨(s.cartitem.filter (fun c => c.cart_id == cid)).map cartItemOut,
        round2 (cartTotal
          ((s.cartitem.filter (fun c => c.cart_id == cid)).map cartItemOut))⟩ := by
    simp [get_cart, h]
  exact ⟨_, e, rfl⟩

/-- Witness for C5 at a concrete one-item cart. -/
theorem c5_cart_total_formula_witness :
    ∃ v : CartView,
      get_cart
        ⟨true, [],
          [⟨"aaaaaaaaaaaaaaaaaaaaaaaa", "c1", "bbbbbbbbbbbbbbbbbbbbbbbb",
            2, 599, none, none⟩], [], 0⟩ "c1" = .ok v ∧
      v.total = round2 ((v.items.map
        (fun i => i.price_snapshot * (i.quantity : ℚ))).sum) :=
  c5_cart_total_formula _ "c1" rfl

lemma isEmpty_false_of_ne_nil {α : Type} {l : List α} (h : l ≠ []) :
    l.isEmpty = false := by
  cases l with
  | nil => exact absurd rfl h
  | cons a t => rfl

/-- C6: on an available store, POST /checkout for a cart_id with at least
one cartitem record inserts exactly one order document, with status paid and
subtotal equal to the rounded sum of price_snapshot times quantity over the
cart items, and answers paid with the new order id. -/
theorem c6_checkout_creates_paid_order (s : DBState) (p : CheckoutIn)
    (h : s.available = true)
    (hne : s.cartitem.filter (fun c => c.cart_id == p.cart_id) ≠ []) :
    checkout s p =
      ({ s with
          order := s.order ++
            [⟨genId s.nextId, p.cart_id,
              (s.cartitem.filter (fun c => c.cart_id == p.cart_id)).map cartItemOut,
              round2 (cartTotal
                ((s.cartitem.filter (fun c => c.cart_id == p.cart_id)).map
                  cartItemOut)),
              "paid", p.email⟩],
          nextId := s.nextId + 1 },
        .ok ("paid", genId s.nextId)) := by
  simp [checkout, h, isEmpty_false_of_ne_nil hne]

/-- Witness for C6: a cart holding one item with price_snapshot 599 and
quantity 2 checks out to an order with subtotal 1198 and status paid. -/
theorem c6_checkout_creates_paid_order_witness :
    ((checkout
        ⟨true, [],
          [⟨"aaaaaaaaaaaaaaaaaaaaaaaa", "c1", "bbbbbbbbbbbbbbbbbbbbbbbb",
            2, 599, none, none⟩], [], 0⟩
        ⟨"c1", none⟩).1.order.map (fun o => (o.subtotal, o.status))) =
      [(1198, "paid")] ∧
    (checkout
        ⟨true, [],
          [⟨"aaaaaaaaaaaaaaaaaaaaaaaa", "c1", "bbbbbbbbbbbbbbbbbbbbbbbb",
            2, 599, none, none⟩], [], 0⟩
        ⟨"c1", none⟩).2 = .ok ("paid", genId 0) := by
  rw [c6_checkout_creates_paid_order _ _ rfl (by decide)]
  refine ⟨?_, rfl⟩
  norm_num [cartItemOut, cartTotal, round2]

/-- C7: a successful POST /checkout leaves the cartitem and watch
collections untouched; only the order collection gains one record. -/
theorem c7_checkout_does_not_clear_cart (s : DBState) (p : CheckoutIn)
    (h : s.available = true)
    (hne : s.cartitem.filter (fun c => c.cart_id == p.cart_id) ≠ []) :
    (checkout s p).1.cartitem = s.cartitem ∧
    (checkout s p).1.watch = s.watch ∧
    (∃ od : OrderDoc, (checkout s p).1.order = s.order ++ [od]) ∧
    ∃ r, (checkout s p).2 = Except.ok r := by
  have hE : (s.cartitem.filter (fun c => c.cart_id == p.cart_id)).isEmpty = false :=
    isEmpty_false_of_ne_nil hne
  have e : checkout s p =
      ({ s with
          order := s.order ++
            [⟨genId s.nextId, p.cart_id,
              (s.cartitem.filter (fun c => c.cart_id == p.cart_id)).map cartItemOut,
              round2 (cartTotal
                ((s.cartitem.filter (fun c => c.cart_id == p.cart_id)).map
                  cartItemOut)),
              "paid", p.email⟩],
          nextId := s.nextId + 1 },
        .ok ("paid", genId s.nextId)) := by
    simp [checkout, h, hE]
  rw [e]
  exact ⟨rfl, rfl, ⟨_, rfl⟩, ⟨_, rfl⟩⟩

/-- Witness for C7 at a concrete one-item cart. -/
theorem c7_checkout_does_not_clear_cart_witness :
    (checkout
        ⟨true, [],
          [⟨"aaaaaaaaaaaaaaaaaaaaaaaa", "c2", "bbbbbbbbbbbbbbbbbbbbbbbb",
            1, 749, none, none⟩], [], 0⟩ ⟨"c2", none⟩).1.cartitem =
      [⟨"aaaaaaaaaaaaaaaaaaaaaaaa", "c2", "bbbbbbbbbbbbbbbbbbbbbbbb",
        1, 749, none, none⟩] ∧
    (checkout
        ⟨true, [],
          [⟨"aaaaaaaaaaaaaaaaaaaaaaaa", "c2", "bbbbbbbbbbbbbbbbbbbbbbbb",
            1, 749, none, none⟩], [], 0⟩ ⟨"c2", none⟩).1.watch = [] ∧
    (∃ od : OrderDoc,
      (checkout
        ⟨true, [],
          [⟨"aaaaaaaaaaaaaaaaaaaaaaaa", "c2", "bbbbbbbbbbbbbbbbbbbbbbbb",
            1, 749, none, none⟩], [], 0⟩ ⟨"c2", none⟩).1.order = [] ++ [od]) ∧
    ∃ r, (checkout
        ⟨true, [],
          [⟨"aaaaaaaaaaaaaaaaaaaaaaaa", "c2", "bbbbbbbbbbbbbbbbbbbbbbbb",
            1, 749, none, none⟩], [], 0⟩ ⟨"c2", none⟩).2 = Except.ok r :=
  c7_checkout_does_not_clear_cart
    ⟨true, [],
      [⟨"aaaaaaaaaaaaaaaaaaaaaaaa", "c2", "bbbbbbbbbbbbbbbbbbbbbbbb",
        1, 749, none, none⟩], [], 0⟩ ⟨"c2", none⟩ rfl (by decide)

/-- C8: calling POST /cart/add twice with the same cart_id and product_id
and quantity 1 appends two separate cartitem records, each with quantity 1
(no merging into one record with quantity 2), and the subsequent
GET /cart total reflects both records. -/
theorem c8_add_same_product_twice (s : DBState) (cid pid : String) (w : WatchDoc)
    (h : s.available = true)
    (hv : isValidObjectId pid = true)
    (hw : s.watch.find? (fun x => x.oid == pid) = some w) :
    ((add_to_cart (add_to_cart s ⟨cid, pid, 1⟩).1 ⟨cid, pid, 1⟩).1.cartitem =
      s.cartitem ++
        ([⟨genId s.nextId, cid, pid, 1, w.price, some w.title, w.image⟩,
          ⟨genId (s.nextId + 1), cid, pid, 1, w.price, some w.title, w.image⟩] :
          List CartItemDoc)) ∧
    ∃ v, get_cart (add_to_cart (add_to_cart s ⟨cid, pid, 1⟩).1 ⟨cid, pid, 1⟩).1 cid =
        Except.ok v ∧
      v.total = round2 (cartTotal
        ((s.cartitem.filter (fun c => c.cart_id == cid)).map cartItemOut)
        + w.price + w.price) := by
  have h1 : (add_to_cart s ⟨cid, pid, 1⟩).1 =
      { s with
        cartitem := s.cartitem ++
          ([⟨genId s.nextId, cid, pid, 1, w.price, some w.title, w.image⟩] :
            List CartItemDoc),
        nextId := s.nextId + 1 } := by
    simp [add_to_cart, h, hv, hw]
  have h2 : (add_to_cart (add_to_cart s ⟨cid, pid, 1⟩).1 ⟨cid, pid, 1⟩).1 =
      { s with
        cartitem := s.cartitem ++
          ([⟨genId s.nextId, cid, pid, 1, w.price, some w.title, w.image⟩,
            ⟨genId (s.nextId + 1), cid, pid, 1, w.price, some w.title, w.image⟩] :
            List CartItemDoc),
        nextId := s.nextId + 2 } := by
    rw [h1]
    simp [add_to_cart, h, hv, hw]
  have hsum : cartTotal
      ((List.filter (fun c => c.cart_id == cid)
        (s.cartitem ++
          ([⟨genId s.nextId, cid, pid, 1, w.price, some w.title, w.image⟩,
            ⟨genId (s.nextId + 1), cid, pid, 1, w.price, some w.title, w.image⟩] :
            List CartItemDoc))).map cartItemOut) =
      cartTotal ((s.cartitem.filter (fun c => c.cart_id == cid)).map cartItemOut)
        + w.price + w.price := by
    simp [cartTotal, List.filter_append, cartItemOut]
    ring
  refine ⟨by rw [h2], ?_⟩
  rw [h2]
  refine ⟨⟨(List.filter (fun c => c.cart_id == cid)
      (s.cartitem ++
        ([⟨genId s.nextId, cid, pid, 1, w.price, some w.title, w.image⟩,
          ⟨genId (s.nextId + 1), cid, pid, 1, w.price, some w.title, w.image⟩] :
          List CartItemDoc))).map cartItemOut,
    round2 (cartTotal ((List.filter (fun c => c.cart_id == cid)
      (s.cartitem ++
        ([⟨genId s.nextId, cid, pid, 1, w.price, some w.title, w.image⟩,
          ⟨genId (s.nextId + 1), cid, pid, 1, w.price, some w.title, w.image⟩] :
          List CartItemDoc))).map cartItemOut))⟩, ?_, ?_⟩
  · simp [get_cart, h]
  · show round2 _ = _
    rw [hsum]

/-- Witness for C8: two adds of the seeded chronograph watch to a fresh cart
leave two separate records of quantity 1, and the cart total counts both. -/
theorem c8_add_same_product_twice_witness :
    ((add_to_cart (add_to_cart
        ⟨true,
          [⟨"0123456789abcdef01234567", "ChronoMaster Pro", none, 599,
            "Aeternum", "chronograph", none, none, true⟩],
          [], [], 0⟩ ⟨"c1", "0123456789abcdef01234567", 1⟩).1
        ⟨"c1", "0123456789abcdef01234567", 1⟩).1.cartitem =
      ([] : List CartItemDoc) ++
        ([⟨genId 0, "c1", "0123456789abcdef01234567", 1, 599,
            some "ChronoMaster Pro", none⟩,
          ⟨genId (0 + 1), "c1", "0123456789abcdef01234567", 1, 599,
            some "ChronoMaster Pro", none⟩] : List CartItemDoc)) ∧
    ∃ v, get_cart (add_to_cart (add_to_cart
        ⟨true,
          [⟨"0123456789abcdef01234567", "ChronoMaster Pro", none, 599,
            "Aeternum", "chronograph", none, none, true⟩],
          [], [], 0⟩ ⟨"c1", "0123456789abcdef01234567", 1⟩).1
        ⟨"c1", "0123456789abcdef01234567", 1⟩).1 "c1" = Except.ok v ∧
      v.total = round2 (cartTotal
        ((([] : List CartItemDoc).filter (fun c => c.cart_id == "c1")).map
          cartItemOut) + 599 + 599) :=
  c8_add_same_product_twice
    ⟨true,
      [⟨"0123456789abcdef01234567", "ChronoMaster Pro", none, 599,
        "Aeternum", "chronograph", none, none, true⟩],
      [], [], 0⟩ "c1" "0123456789abcdef01234567"
    ⟨"0123456789abcdef01234567", "ChronoMaster Pro", none, 599,
      "Aeternum", "chronograph", none, none, true⟩
    rfl (by decide) rfl

lemma isEmpty_false_of_lower_chrono (q : String)
    (hq : lowerData q = "chrono".data) : q.isEmpty = false := by
  cases hqe : q.isEmpty
  · rfl
  · exfalso
    have hq0 : q = "" := (String.isEmpty_iff q).mp hqe
    subst hq0
    exact absurd hq (by decide)

/-- C9: on the seeded store, GET /watches with any query string q whose
lowercasing is chrono returns exactly the watch titled ChronoMaster Pro:
the AquaSport 300 (and Elegance Dress 40) watches are filtered out, and the
match is a case-insensitive substring match on the title field only. -/
theorem c9_search_title_case_insensitive (q : String)
    (hq : lowerData q = "chrono".data) :
    ∃ l, list_watches (seedState ⟨true, [], [], [], 0⟩) none none (some q) =
        Except.ok l ∧
      l.map (fun w => w.title) = ["ChronoMaster Pro"] := by
  have hne : q.isEmpty = false := isEmpty_false_of_lower_chrono q hq
  have hfg : (seedState ⟨true, [], [], [], 0⟩).watch.filter
      (watchMatches none none (some q)) =
      (seedState ⟨true, [], [], [], 0⟩).watch.filter
        (fun w => isSubListOf "chrono".data (lowerData w.title)) := by
    apply List.filter_congr
    intro w _
    simp [watchMatches, hne, titleMatches, hq]
  refine ⟨_, rfl, ?_⟩
  rw [hfg]
  decide

/-- Witness for C9 with the mixed-case query cHrOnO. -/
theorem c9_search_title_case_insensitive_witness :
    ∃ l, list_watches (seedState ⟨true, [], [], [], 0⟩) none none
        (some "cHrOnO") = Except.ok l ∧
      l.map (fun w => w.title) = ["ChronoMaster Pro"] :=
  c9_search_title_case_insensitive "cHrOnO" (by decide)

end WatchStore
